import Mathlib

/-!
Verification of the lead-qualification core of the `kim` repository.

The Python source under `functions/` is shallowly embedded: Python `str`
values are modelled as lists of Unicode codepoints (`List Nat`), Python
dictionaries with known keys are modelled as structures whose fields are
`Option`-typed where the key may be absent, and Python integer/boolean
truthiness is made explicit through small helper functions.  The embedded
functions mirror, statement by statement, the following source locations:

* `functions/config_model.py` — configuration dataclasses, `validate`
  predicates and `ProjectConfig.get_effective_config`;
* `functions/utils/data_processing.py` — `LeadProcessor.apply_lead_filters`,
  `LeadProcessor._normalize_company_name`,
  `LeadProcessor._should_filter_by_company_size`,
  `LeadProcessor._passes_quality_filters`,
  `LeadProcessor.get_filtering_stats`;
* `functions/enrich_leads.py` — the per-lead retry loop of
  `enrich_leads_logic` (lines 137–231) and `validate_enrichment_data`.

Only ASCII characters are relevant to the comparisons performed by the
source (prefixes, suffixes, e-mail patterns), so `.lower()` is modelled as
the ASCII lowercase map and `.strip()` strips the ASCII whitespace
characters recognised by Python.
-/

/-- Python strings, modelled as lists of Unicode codepoints. -/
abbrev Str := List Nat

/-- Embed a Lean string literal as a codepoint list. -/
def str (s : String) : Str := s.data.map Char.toNat

/-- ASCII lowercase of one codepoint, the fragment of Python `str.lower`
relevant to the comparisons made by the source. -/
def lowerChar (c : Nat) : Nat := if 65 ≤ c ∧ c ≤ 90 then c + 32 else c

/-- Python `str.lower` (ASCII fragment). -/
def strLower (s : Str) : Str := s.map lowerChar

/-- The whitespace codepoints stripped by Python `str.strip()`:
space, tab, newline, carriage return, vertical tab, form feed. -/
def isPySpace (c : Nat) : Bool := c = 32 ∨ c = 9 ∨ c = 10 ∨ c = 13 ∨ c = 11 ∨ c = 12

/-- Leading-whitespace removal, the first half of Python `str.strip()`. -/
def dropLeading (s : Str) : Str := s.dropWhile isPySpace

/-- Trailing-whitespace removal, the second half of Python `str.strip()`. -/
def dropTrailing (s : Str) : Str := (s.reverse.dropWhile isPySpace).reverse

/-- Python `str.strip()`: drop leading and trailing whitespace. -/
def pyStrip (s : Str) : Str := dropTrailing (dropLeading s)

/-- Python `str.startswith`. -/
def strStartsWith (pfx s : Str) : Bool := pfx.isPrefixOf s

/-- Python `str.endswith`. -/
def strEndsWith (sfx s : Str) : Bool := sfx.isSuffixOf s

/-- Python `sub in s` for strings: substring containment. -/
def containsSub (sub s : Str) : Bool := s.tails.any (fun t => strStartsWith sub t)

/-- Python `c in s` for a single character. -/
def containsChar (c : Nat) (s : Str) : Bool := s.contains c

/-- Python `s.split(sep)` for a one-character separator: keeps empty pieces,
`"".split(sep) = [""]`. -/
def splitOnChar (sep : Nat) : Str → List Str
  | [] => [[]]
  | c :: rest =>
    let r := splitOnChar sep rest
    if c = sep then [] :: r
    else match r with
      | [] => [[c]]
      | piece :: pieces => (c :: piece) :: pieces

/-- Python `s.split()` (no argument): split on whitespace runs, discarding
empty tokens.  `go` carries the token currently being accumulated, reversed. -/
def splitWsGo : Str → Str → List Str
  | cur, [] => if cur = [] then [] else [cur.reverse]
  | cur, c :: rest =>
    if isPySpace c then
      if cur = [] then splitWsGo [] rest
      else cur.reverse :: splitWsGo [] rest
    else splitWsGo (c :: cur) rest

/-- Python `s.split()` with no argument. -/
def pySplitWs (s : Str) : List Str := splitWsGo [] s

/-- Decimal digit test. -/
def isDigitCp (c : Nat) : Bool := 48 ≤ c ∧ c ≤ 57

/-- Digits to a natural number, most significant first. -/
def digitsToNat (s : Str) : Nat := s.foldl (fun acc c => 10 * acc + (c - 48)) 0

/-- Python `int(s)` on a decimal string: optional surrounding whitespace,
optional sign, then at least one digit; `none` models `ValueError`.
(Underscore separators accepted by Python are not modelled; no relevant
input contains them.) -/
def parseIntOpt (s : Str) : Option Int :=
  let t := pyStrip s
  let (sign, digits) : Int × Str :=
    match t with
    | 43 :: rest => (1, rest)
    | 45 :: rest => (-1, rest)
    | _ => (1, t)
  if digits ≠ [] ∧ digits.all isDigitCp then
    some (sign * (digitsToNat digits : Int))
  else none

/-- Truthiness of a Python `Optional[str]` value: `None` and `""` are falsy. -/
def truthyStr (o : Option Str) : Bool := o.getD [] ≠ []

/-- Python dict access with a default: the string under an optional key,
empty when the key is absent. -/
def getStr (o : Option Str) : Str := o.getD []

/-- Truthiness of a Python `Optional[int]` value: `None` and `0` are falsy. -/
def truthyOptInt (o : Option Int) : Bool :=
  match o with
  | none => false
  | some n => n ≠ 0

/-! ## `LeadProcessor._normalize_company_name` (data_processing.py 358–389) -/
/-- The prefix list of `_normalize_company_name`, whose single entry is the
word the followed by one space. -/
def companyPrefixes : List Str := [str "the "]

/-- The suffix list of `_normalize_company_name`, in source order. -/
def companySuffixes : List Str :=
  [str "inc", str "corp", str "corporation", str "llc",
   str "ltd", str "limited", str "co", str "company"]

/-- The four candidate patterns tried for one suffix, in source order:
space+s, space+s+period, comma+space+s, comma+space+s+period. -/
def suffixPatterns (sfx : Str) : List Str :=
  [32 :: sfx, (32 :: sfx) ++ [46], 44 :: 32 :: sfx, (44 :: 32 :: sfx) ++ [46]]

/-- The prefix pass: for each listed prefix, strip it once if present. -/
def stripPrefixPass (s : Str) : Str :=
  companyPrefixes.foldl
    (fun acc pfx => if strStartsWith pfx acc then acc.drop pfx.length else acc) s

/-- One iteration of the suffix loop: strip the first matching pattern for
this suffix (the inner `break` stops at the first pattern only). -/
def stripOneSuffix (s : Str) (sfx : Str) : Str :=
  match (suffixPatterns sfx).find? (fun p => strEndsWith p s) with
  | some p => s.take (s.length - p.length)
  | none => s

/-- The suffix pass: the outer loop continues over the remaining suffixes
even after one of them matched. -/
def stripSuffixPass (s : Str) : Str := companySuffixes.foldl stripOneSuffix s

/-- Function `LeadProcessor._normalize_company_name`. -/
def normalize_company_name (company_name : Str) : Str :=
  if company_name = [] then []
  else
    let normalized := pyStrip (strLower company_name)
    let normalized := stripPrefixPass normalized
    let normalized := stripSuffixPass normalized
    pyStrip normalized

/-! ## Configuration model (`functions/config_model.py`) -/
/-- Enum `JobRole` (config_model.py 26–44). -/
inductive JobRole where
  | ceo | cto | founder | cofounder | president
  | vpEngineering | vpTechnology | headOfEngineering | engineeringManager
  | technicalDirector | humanResources | officeManager | secretary
  | assistant | assistantManager | manager | socialMedia
deriving DecidableEq, Repr

/-- Structure `SmtpConfig` (config_model.py 47–72).  The e-mail regex of
`_is_valid_email` is not needed by any claim and is left abstract here; its
uses are confined to `SmtpConfig.validate`, which no claim exercises. -/
structure SmtpConfig where
  host : Str
  port : Int
  secure : Bool
  username : Str
  password : Str
  from_email : Str
  from_name : Str
  reply_to_email : Option Str
deriving DecidableEq, Repr

/-- Structure `ApiKeysConfig` (config_model.py 75–86). -/
structure ApiKeysConfig where
  openai_api_key : Str
  apollo_api_key : Str
  apifi_api_key : Str
  perplexity_api_key : Str
deriving DecidableEq, Repr

/-- Structure `LeadFilterConfig` (config_model.py 89–102). -/
structure LeadFilterConfig where
  one_person_per_company : Bool
  require_email : Bool
  exclude_blacklisted : Bool
  min_company_size : Option Int
  max_company_size : Option Int
deriving DecidableEq, Repr

/-- Predicate `LeadFilterConfig.validate` (config_model.py 98–102): the bound check is
guarded by Python truthiness of both optional fields. -/
def LeadFilterConfig.validate (c : LeadFilterConfig) : Bool :=
  if truthyOptInt c.min_company_size ∧ truthyOptInt c.max_company_size then
    c.min_company_size.getD 0 ≤ c.max_company_size.getD 0
  else true

/-- Structure `LocationConfig` (config_model.py 105–117). -/
structure LocationConfig where
  raw_location : Str
  apollo_location_ids : List Str
  use_llm_parsing : Bool
deriving DecidableEq, Repr

/-- Predicate `LocationConfig.validate` (config_model.py 112–117). -/
def LocationConfig.validate (c : LocationConfig) : Bool :=
  if c.use_llm_parsing then pyStrip c.raw_location ≠ []
  else c.apollo_location_ids ≠ []

/-- Structure `JobRoleConfig` (config_model.py 120–137). -/
structure JobRoleConfig where
  target_roles : List JobRole
  custom_roles : List Str
deriving DecidableEq, Repr

/-- Predicate `JobRoleConfig.validate` (config_model.py 135–137). -/
def JobRoleConfig.validate (c : JobRoleConfig) : Bool :=
  c.target_roles.length > 0 ∨ c.custom_roles.length > 0

/-- Structure `EnrichmentConfig` (config_model.py 140–166). -/
structure EnrichmentConfig where
  enabled : Bool
  max_retries : Int
  timeout_seconds : Int
  prompt_template : Str
deriving DecidableEq, Repr

/-- Predicate `EnrichmentConfig.validate` (config_model.py 161–166). -/
def EnrichmentConfig.validate (c : EnrichmentConfig) : Bool :=
  c.max_retries > 0 ∧ c.timeout_seconds > 0 ∧
    containsSub (str "\x7bcompany\x7d") c.prompt_template ∧
    containsSub (str "\x7bname\x7d") c.prompt_template

/-- Structure `EmailGenerationConfig` (config_model.py 169–220).  The float field
`temperature` is modelled as a rational. -/
structure EmailGenerationConfig where
  model : Str
  max_tokens : Int
  temperature : ℚ
  outreach_prompt : Str
  followup_prompt : Str
deriving DecidableEq, Repr

/-- Predicate `EmailGenerationConfig.validate` (config_model.py 215–220). -/
def EmailGenerationConfig.validate (c : EmailGenerationConfig) : Bool :=
  c.max_tokens > 0 ∧ 0 ≤ c.temperature ∧ c.temperature ≤ 2 ∧
    containsSub (str "\x7bproject_name\x7d") c.outreach_prompt ∧
    containsSub (str "\x7bname\x7d") c.outreach_prompt

/-- Structure `SchedulingConfig` (config_model.py 223–243). -/
structure SchedulingConfig where
  followup_delay_days : Int
  max_followups : Int
  daily_email_limit : Int
  rate_limit_delay_seconds : Int
  working_hours_start : Int
  working_hours_end : Int
  working_days : List Int
  timezone : Str
deriving DecidableEq, Repr

/-- Predicate `SchedulingConfig.validate` (config_model.py 235–243). -/
def SchedulingConfig.validate (c : SchedulingConfig) : Bool :=
  c.followup_delay_days > 0 ∧ c.max_followups ≥ 0 ∧ c.daily_email_limit > 0 ∧
    0 ≤ c.working_hours_start ∧ c.working_hours_start < 24 ∧
    0 ≤ c.working_hours_end ∧ c.working_hours_end < 24 ∧
    c.working_hours_start < c.working_hours_end ∧
    c.working_days.all (fun d => 0 ≤ d ∧ d ≤ 6)

/-- Structure `GlobalConfig` (config_model.py 246–265). -/
structure GlobalConfig where
  smtp : SmtpConfig
  api_keys : ApiKeysConfig
  lead_filter : LeadFilterConfig
  job_roles : JobRoleConfig
  enrichment : EnrichmentConfig
  email_generation : EmailGenerationConfig
  scheduling : SchedulingConfig
deriving DecidableEq, Repr

/-- Structure `ProjectConfig` (config_model.py 268–317): per-domain use-global flags
plus optional overrides, meaningful only when the flag is false. -/
structure ProjectConfig where
  project_id : Str
  location : LocationConfig
  use_global_lead_filter : Bool
  use_global_job_roles : Bool
  use_global_enrichment : Bool
  use_global_email_generation : Bool
  use_global_scheduling : Bool
  lead_filter : Option LeadFilterConfig
  job_roles : Option JobRoleConfig
  enrichment : Option EnrichmentConfig
  email_generation : Option EmailGenerationConfig
  scheduling : Option SchedulingConfig
deriving DecidableEq, Repr

/-- Structure `EffectiveProjectConfig` (config_model.py 320–329).  The Python class
annotates each domain with its bare type, but `get_effective_config` can in
fact place `None` in any of the five overridable domains (annotations are not
enforced at runtime), so the embedding types them as `Option`. -/
structure EffectiveProjectConfig where
  project_id : Str
  location : LocationConfig
  lead_filter : Option LeadFilterConfig
  job_roles : Option JobRoleConfig
  enrichment : Option EnrichmentConfig
  email_generation : Option EmailGenerationConfig
  scheduling : Option SchedulingConfig
deriving DecidableEq, Repr

/-- Function `ProjectConfig.get_effective_config` (config_model.py 288–298): for each
overridable domain `D`, the effective value is `global.D` when
`use_global_D` is set, and otherwise the `D` field of the project itself
otherwise. -/
def ProjectConfig.get_effective_config (p : ProjectConfig)
    (global_config : GlobalConfig) : EffectiveProjectConfig :=
  { project_id := p.project_id
    location := p.location
    lead_filter :=
      if p.use_global_lead_filter then some global_config.lead_filter
      else p.lead_filter
    job_roles :=
      if p.use_global_job_roles then some global_config.job_roles
      else p.job_roles
    enrichment :=
      if p.use_global_enrichment then some global_config.enrichment
      else p.enrichment
    email_generation :=
      if p.use_global_email_generation then some global_config.email_generation
      else p.email_generation
    scheduling :=
      if p.use_global_scheduling then some global_config.scheduling
      else p.scheduling }

/-- A concrete well-formed global configuration used by the closed theorems. -/
def gEx : GlobalConfig :=
  { smtp := ⟨str "smtp.gmail.com", 587, false, str "user", str "pass",
      str "from@acme.com", str "Acme", none⟩
    api_keys := ⟨str "sk-1", str "ap-1", [], str "px-1"⟩
    lead_filter := ⟨true, true, true, none, none⟩
    job_roles := ⟨[.humanResources, .officeManager], []⟩
    enrichment := ⟨true, 3, 30,
      str "Research \x7bcompany\x7d and \x7bname\x7d (\x7btitle\x7d)."⟩
    email_generation := ⟨str "gpt-4", 500, 7/10,
      str "Write for \x7bproject_name\x7d to \x7bname\x7d at \x7bcompany\x7d.",
      str "Follow up with \x7bname\x7d."⟩
    scheduling := ⟨7, 3, 50, 60, 9, 17, [0, 1, 2, 3, 4], str "UTC"⟩ }

/-- A project that clears every use-global flag but supplies no override. -/
def pExNoOverride : ProjectConfig :=
  { project_id := str "proj-1"
    location := ⟨str "Austin, TX", [], true⟩
    use_global_lead_filter := false
    use_global_job_roles := false
    use_global_enrichment := false
    use_global_email_generation := false
    use_global_scheduling := false
    lead_filter := none
    job_roles := none
    enrichment := none
    email_generation := none
    scheduling := none }

/-- A project overriding the lead filter with an explicit domain object. -/
def pExOverride : ProjectConfig :=
  { pExNoOverride with
    use_global_lead_filter := false
    lead_filter := some ⟨false, true, false, some 10, some 200⟩ }

/-! ## Lead records

A lead document is a Python dict; the fields the core reads are modelled
with `Option` for possibly-absent keys.  `raw_data` holds the raw provider
payload, of which only `organization.estimated_num_employees` and
`organization.num_employees_ranges` are consumed (data_processing.py
406–427). -/
/-- The `organization` sub-dict of a raw Apollo person record. -/
structure Organization where
  estimated_num_employees : Option Int
  num_employees_ranges : List Str
deriving DecidableEq, Repr

/-- The `raw_data` payload: `organization` may be absent or empty, both
falsy in Python; `none` models either. -/
structure RawData where
  organization : Option Organization
deriving DecidableEq, Repr

/-- A lead document (the fields read by the filtering and enrichment code). -/
structure Lead where
  email : Option Str
  name : Option Str
  company : Option Str
  title : Option Str
  raw_data : Option RawData
deriving DecidableEq, Repr

/-! ## `validate_enrichment_data` (enrich_leads.py 469–518) -/
/-- The fixed list of low-information phrases (enrich_leads.py 491–502),
in source order; codepoint 39 is the apostrophe. -/
def generic_phrases : List Str :=
  [str "i don" ++ [39] ++ str "t have information",
   str "i cannot find",
   str "no information available",
   str "unable to provide",
   str "insufficient data",
   str "i apologize",
   str "i" ++ [39] ++ str "m sorry",
   str "i don" ++ [39] ++ str "t know",
   str "error occurred",
   str "failed to retrieve"]

/-- Function `validate_enrichment_data` over the three text fields of its input
dict.  The uniqueness ratio `len(set(words)) < len(words) * 0.3` is modelled
with the exact rational 3/10 (the claims under study stay clear of the
float-rounding boundary). -/
def validate_enrichment_data (content company_research person_research : Str) : Bool :=
  let text_to_validate :=
    if content ≠ [] then content
    else company_research ++ [32] ++ person_research
  if text_to_validate.length < 100 then false
  else if generic_phrases.any
      (fun p => containsSub p (strLower text_to_validate)) then false
  else if 10 * (pySplitWs text_to_validate).dedup.length <
      3 * (pySplitWs text_to_validate).length then false
  else if (splitOnChar 46 text_to_validate).length < 3 then false
  else true

/-- The call site at enrich_leads.py 176 validates a dict holding only the
content key. -/
def validateContent (content : Str) : Bool :=
  validate_enrichment_data content [] []

/-! ## The per-lead enrichment retry loop (enrich_leads.py 137–231)

The Perplexity collaborator is abstracted as an oracle mapping the index of
the call (0-based) to what the `try` block observes: a response whose first
choice carries `content`, a falsy/choice-less response, or a raised
exception.  Prompt construction (lines 155–163) has no influence on control
flow and is absorbed into the oracle. -/
/-- What one collaborator call produces inside the `try` block. -/
inductive OracleReply where
  | reply (content : Option Str)
  | raisedErr (msg : Str)
deriving DecidableEq, Repr

/-- Terminal per-lead enrichment status: the loop always persists exactly
one of `enriched` or `failed`. -/
inductive EnrichStatus where
  | enriched
  | failed
deriving DecidableEq, Repr

/-- The per-lead record persisted at enrich_leads.py 200–227: terminal
status, `enrichmentAttempts`, the last `enrichment_error`, plus (for the
proofs) how many collaborator calls were made. -/
structure EnrichOutcome where
  status : EnrichStatus
  attempts : Nat
  error : Option Str
  oracleCalls : Nat
deriving DecidableEq, Repr

/-- Error string at enrich_leads.py 186. -/
def msgNoResponse : Str := str "No response from Perplexity API"

/-- Error string at enrich_leads.py 184. -/
def msgFailedValidation : Str := str "Enrichment data failed quality validation"

/-- Error string at enrich_leads.py 188. -/
def msgMissingCompany : Str := str "Missing required data for enrichment (company name)"

/-- The `while enrichment_attempts < max_retries and not enrichment_success`
loop (enrich_leads.py 142–196), as fuel recursion: `fuel` is the number of
loop iterations still permitted (`max_retries - enrichment_attempts`);
`attempts`, `calls` and `err` carry `enrichment_attempts`, the number of
collaborator calls made, and `enrichment_error`. -/
def enrichGo (lead : Lead) (etype : Str) (oracle : Nat → OracleReply) :
    Nat → Nat → Nat → Option Str → EnrichOutcome
  | 0, attempts, calls, err => ⟨.failed, attempts, err, calls⟩
  | fuel + 1, attempts, calls, err =>
    if getStr lead.company ≠ [] ∧ (etype = str "company" ∨ etype = str "both") then
      match oracle calls with
      | .raisedErr m =>
        enrichGo lead etype oracle fuel (attempts + 1) (calls + 1) (some m)
      | .reply none =>
        enrichGo lead etype oracle fuel (attempts + 1) (calls + 1) (some msgNoResponse)
      | .reply (some content) =>
        if validateContent content then ⟨.enriched, attempts + 1, err, calls + 1⟩
        else enrichGo lead etype oracle fuel (attempts + 1) (calls + 1)
          (some msgFailedValidation)
    else ⟨.failed, attempts + 1, some msgMissingCompany, calls⟩

/-- One pass of a lead through the retry loop followed by the terminal update
(enrich_leads.py 137–227): the loop runs at most `max(0, max_retries)`
iterations, exits early on success or on the missing-company `break`, and
the terminal status with `enrichmentAttempts` is recorded. -/
def processLead (cfg : EnrichmentConfig) (lead : Lead) (etype : Str)
    (oracle : Nat → OracleReply) : EnrichOutcome :=
  enrichGo lead etype oracle cfg.max_retries.toNat 0 0 none

/-- The batch loop over `leads_to_enrich` (enrich_leads.py 137–231):
`oracleFor` gives each lead its own collaborator behaviour; the two counters
mirror `enriched_count` and `failed_count`. -/
def batchGo (cfg : EnrichmentConfig) (etype : Str)
    (oracleFor : Lead → Nat → OracleReply) :
    List Lead → Nat → Nat → Nat × Nat × List EnrichOutcome
  | [], e, f => (e, f, [])
  | l :: rest, e, f =>
    let o := processLead cfg l etype (oracleFor l)
    match o.status with
    | .enriched =>
      let r := batchGo cfg etype oracleFor rest (e + 1) f
      (r.1, r.2.1, o :: r.2.2)
    | .failed =>
      let r := batchGo cfg etype oracleFor rest e (f + 1)
      (r.1, r.2.1, o :: r.2.2)

/-- The counts of the structured result built at enrich_leads.py 251–259. -/
structure EnrichLeadsResult where
  leads_processed : Nat
  leads_enriched : Nat
  leads_failed : Nat
deriving DecidableEq, Repr

/-- The count fields of the dict returned by `enrich_leads_logic` once the
per-lead loop has been reached. -/
def enrich_leads_loop (cfg : EnrichmentConfig) (etype : Str)
    (oracleFor : Lead → Nat → OracleReply) (leads : List Lead) :
    EnrichLeadsResult :=
  let r := batchGo cfg etype oracleFor leads 0 0
  ⟨leads.length, r.1, r.2.1⟩

/-! ## `LeadProcessor._passes_quality_filters` (data_processing.py 442–489) -/
/-- Generic role-account e-mail patterns (data_processing.py 454–458). -/
def generic_patterns : List Str :=
  [str "info@", str "contact@", str "support@", str "help@", str "sales@",
   str "admin@", str "webmaster@", str "postmaster@", str "noreply@",
   str "no-reply@", str "donotreply@", str "marketing@"]

/-- Disposable-mail domains (data_processing.py 464–467). -/
def disposable_domains : List Str :=
  [str "10minutemail.com", str "guerrillamail.com", str "tempmail.org",
   str "mailinator.com", str "dispostable.com"]

/-- Placeholder names (data_processing.py 481). -/
def test_names : List Str :=
  [str "test", str "demo", str "sample", str "example", str "admin", str "user"]

/-- Function `LeadProcessor._passes_quality_filters`. -/
def passes_quality_filters (lead : Lead) : Bool :=
  let email := strLower (getStr lead.email)
  if generic_patterns.any (fun p => strStartsWith p email) then false
  else
    let email_domain :=
      if containsChar 64 email then (splitOnChar 64 email).getLastD [] else []
    if email_domain ∈ disposable_domains then false
    else
      let name := pyStrip (getStr lead.name)
      if name ≠ [] ∧ name.length < 2 then false
      else if name ≠ [] ∧ strLower name ∈ test_names then false
      else if name ≠ [] ∧ (pySplitWs name).length = 1 ∧ name.length < 3 then false
      else true

/-! ## `LeadProcessor._should_filter_by_company_size` (data_processing.py 391–440) -/
/-- The employee-count recovery of `_should_filter_by_company_size`
(data_processing.py 406–427): the explicit estimate when truthy, otherwise
the integer before the first `-` of the first employee-range string; parse
failures leave the previously held value (`None`, or a falsy estimate). -/
def extractCompanySize (lead : Lead) : Option Int :=
  match lead.raw_data with
  | none => none
  | some raw_data =>
    match raw_data.organization with
    | none => none
    | some org =>
      let company_size := org.estimated_num_employees
      if truthyOptInt company_size then company_size
      else
        match org.num_employees_ranges with
        | [] => company_size
        | range_str :: _ =>
          if containsChar 45 range_str then
            match parseIntOpt ((splitOnChar 45 range_str).headD []) with
            | some min_emp => some min_emp
            | none => company_size
          else company_size

/-- Function `LeadProcessor._should_filter_by_company_size`, where `true`
means drop.  The
bound checks are guarded by Python truthiness of the configured bounds. -/
def should_filter_by_company_size (lead : Lead)
    (filter_config : LeadFilterConfig) : Bool :=
  if ¬ truthyOptInt filter_config.min_company_size ∧
      ¬ truthyOptInt filter_config.max_company_size then false
  else
    match extractCompanySize lead with
    | none => false
    | some company_size =>
      if truthyOptInt filter_config.min_company_size ∧
          company_size < filter_config.min_company_size.getD 0 then true
      else if truthyOptInt filter_config.max_company_size ∧
          company_size > filter_config.max_company_size.getD 0 then true
      else false

/-! ## `LeadProcessor.apply_lead_filters` (data_processing.py 287–356) -/
/-- One candidate pass through the filter stages, in source order:
e-mail requirement, blacklist, one-person-per-company, company size,
quality.  Returns whether the candidate is kept together with the updated
company tracker.  The tracker is extended at line 341, before the size and
quality stages run, so a candidate that claims its company key and is then
dropped by a later stage still blocks that key. -/
def leadStep (filter_config : LeadFilterConfig) (existing_leads : List Lead)
    (blacklisted_set : List Str) (lead : Lead) (tracker : List Str) :
    Bool × List Str :=
  if filter_config.require_email ∧ ¬ truthyStr lead.email then (false, tracker)
  else if filter_config.exclude_blacklisted ∧ truthyStr lead.email ∧
      strLower (getStr lead.email) ∈ blacklisted_set then (false, tracker)
  else if filter_config.one_person_per_company ∧ truthyStr lead.company then
    let company_name := normalize_company_name (getStr lead.company)
    if company_name ∈ tracker then (false, tracker)
    else if existing_leads.any (fun ex =>
        normalize_company_name (getStr ex.company) = company_name) then
      (false, tracker)
    else
      (!(should_filter_by_company_size lead filter_config) &&
        passes_quality_filters lead, company_name :: tracker)
  else
    (!(should_filter_by_company_size lead filter_config) &&
      passes_quality_filters lead, tracker)

/-- The per-candidate loop of `apply_lead_filters` (lines 314–353), with the
`company_tracker` dict modelled as the list of claimed keys. -/
def filterGo (filter_config : LeadFilterConfig) (existing_leads : List Lead)
    (blacklisted_set : List Str) : List Lead → List Str → List Lead
  | [], _ => []
  | lead :: rest, tracker =>
    let step := leadStep filter_config existing_leads blacklisted_set lead tracker
    if step.1 then
      lead :: filterGo filter_config existing_leads blacklisted_set rest step.2
    else filterGo filter_config existing_leads blacklisted_set rest step.2

/-- Function `LeadProcessor.apply_lead_filters`: early return on an empty batch, then
the staged loop; the blacklist set is the lowered e-mail list. -/
def apply_lead_filters (leads : List Lead) (filter_config : LeadFilterConfig)
    (existing_leads : List Lead) (blacklisted_emails : List Str) : List Lead :=
  if leads = [] then []
  else filterGo filter_config existing_leads
    (blacklisted_emails.map strLower) leads []

/-- Two distinct quality-passing candidates whose `company` is empty or
absent; both bypass the one-person-per-company stage. -/
def leadNoCompanyA : Lead :=
  ⟨some (str "a@x.com"), some (str "Jane Doe"), some [], none, none⟩

/-- Second empty-company candidate, distinct from the first. -/
def leadNoCompanyB : Lead :=
  ⟨some (str "b@y.com"), some (str "John Roe"), none, none, none⟩

/-- The strictest boolean filter configuration, no size bounds. -/
def cfgAllOn : LeadFilterConfig := ⟨true, true, true, none, none⟩

/-- Scenario-3 candidate: `organization.num_employees_ranges = ["11-50"]`
and no explicit employee estimate. -/
def leadRange11to50 : Lead :=
  ⟨some (str "f@x.com"), some (str "Jane Doe"), some (str "Bar"), none,
   some ⟨some ⟨none, [str "11-50"]⟩⟩⟩

/-- Filter configuration with `min_company_size = 50` and no maximum. -/
def cfgMin50 : LeadFilterConfig := ⟨true, true, true, some 50, none⟩

/-! ### Content-validation length boundary (claim C8) -/
/-- A concrete plausible 100-character response: four `.`-segments, no
banned phrase, and all fifteen tokens distinct. -/
def exText100 : Str :=
  str "Acme Robotics builds warehouse automation systems. Revenue grew forty percent last year. Team of 80."

/-! ## `LeadProcessor.get_filtering_stats` (data_processing.py 491–520) -/
/-- The `filters_applied` sub-dict of the statistics payload. -/
structure FiltersApplied where
  require_email : Bool
  exclude_blacklisted : Bool
  one_person_per_company : Bool
  company_size_filter : Bool
deriving DecidableEq, Repr

/-- The statistics payload: exactly the five fields built at
data_processing.py 509–519. -/
structure FilterStats where
  original_count : Int
  filtered_count : Int
  filtered_out : Int
  filter_rate_percent : ℚ
  filters_applied : FiltersApplied
deriving DecidableEq, Repr

/-- Round-half-to-even to an integer, the tie-breaking used by Python
`round`. -/
def roundHalfEven (x : ℚ) : Int :=
  let f := ⌊x⌋
  let r := x - f
  if r < 1/2 then f
  else if r > 1/2 then f + 1
  else if f % 2 = 0 then f else f + 1

/-- Python `round(x, 2)`, modelled exactly over the rationals. -/
def round2 (x : ℚ) : ℚ := (roundHalfEven (x * 100) : ℚ) / 100

/-- Function `LeadProcessor.get_filtering_stats`: the zero-guard on `original_count`
avoids the division. -/
def get_filtering_stats (original_count filtered_count : Int)
    (filter_config : LeadFilterConfig) : FilterStats :=
  let filtered_out := original_count - filtered_count
  let filter_rate : ℚ :=
    if original_count > 0 then (filtered_out : ℚ) / (original_count : ℚ) * 100
    else 0
  { original_count := original_count
    filtered_count := filtered_count
    filtered_out := filtered_out
    filter_rate_percent := round2 filter_rate
    filters_applied :=
      ⟨filter_config.require_email, filter_config.exclude_blacklisted,
       filter_config.one_person_per_company,
       truthyOptInt filter_config.min_company_size ||
         truthyOptInt filter_config.max_company_size⟩ }

/-! ### Structural lemmas for `_normalize_company_name` -/
/-- The ASCII lowercase map is idempotent. -/
theorem lowerChar_idem (c : Nat) : lowerChar (lowerChar c) = lowerChar c := by
  simp only [lowerChar]; split_ifs <;> omega

/-- Every codepoint of a lowered string is a fixed point of `lowerChar`. -/
theorem mem_strLower_lowered {s : Str} {c : Nat} (hc : c ∈ strLower s) :
    lowerChar c = c := by
  simp only [strLower, List.mem_map] at hc
  obtain ⟨a, _, rfl⟩ := hc
  exact lowerChar_idem a

/-- Lowering a string of `lowerChar`-fixed codepoints is the identity. -/
theorem strLower_eq_self {s : Str} (h : ∀ c ∈ s, lowerChar c = c) :
    strLower s = s := by
  unfold strLower
  have hm : s.map lowerChar = s.map id := List.map_congr_left (by simpa using h)
  simpa using hm

theorem dropLeading_subset (s : Str) : dropLeading s ⊆ s :=
  (List.dropWhile_sublist _).subset

theorem dropTrailing_subset (s : Str) : dropTrailing s ⊆ s := by
  intro c hc
  rw [dropTrailing, List.mem_reverse] at hc
  exact List.mem_reverse.mp ((List.dropWhile_sublist _).subset hc)

theorem pyStrip_subset (s : Str) : pyStrip s ⊆ s := by
  intro c hc
  exact dropLeading_subset s (dropTrailing_subset _ hc)

theorem stripPrefixPass_subset (s : Str) : stripPrefixPass s ⊆ s := by
  unfold stripPrefixPass
  simp only [companyPrefixes, List.foldl_cons, List.foldl_nil]
  split
  · exact (List.drop_sublist _ _).subset
  · exact fun _ hc => hc

theorem stripOneSuffix_subset (s sfx : Str) : stripOneSuffix s sfx ⊆ s := by
  unfold stripOneSuffix
  cases h : (suffixPatterns sfx).find? (fun p => strEndsWith p s) with
  | none => exact fun _ hc => hc
  | some p => exact (List.take_sublist _ _).subset

theorem foldl_stripOneSuffix_subset (l : List Str) (s : Str) :
    l.foldl stripOneSuffix s ⊆ s := by
  induction l generalizing s with
  | nil => exact fun _ hc => hc
  | cons sfx rest ih =>
    exact fun _ hc => stripOneSuffix_subset s sfx (ih (stripOneSuffix s sfx) hc)

theorem stripSuffixPass_subset (s : Str) : stripSuffixPass s ⊆ s :=
  foldl_stripOneSuffix_subset companySuffixes s

/-- Unfolding of `_normalize_company_name` on truthy input. -/
theorem normalize_company_name_eq (s : Str) (h : ¬ s = []) :
    normalize_company_name s =
      pyStrip (stripSuffixPass (stripPrefixPass (pyStrip (strLower s)))) := by
  rw [normalize_company_name, if_neg h]

/-- The output of `_normalize_company_name` is drawn from the lowered input. -/
theorem normalize_company_name_subset (s : Str) :
    normalize_company_name s ⊆ strLower s := by
  by_cases h : s = []
  · subst h; intro c hc; cases hc
  · rw [normalize_company_name_eq s h]
    exact (pyStrip_subset _).trans ((stripSuffixPass_subset _).trans
      ((stripPrefixPass_subset _).trans (pyStrip_subset _)))

/-- Every codepoint of a normalized company name is lowercase-fixed. -/
theorem normalize_company_name_lowered (s : Str) :
    ∀ c ∈ normalize_company_name s, lowerChar c = c :=
  fun _ hc => mem_strLower_lowered (normalize_company_name_subset s hc)

theorem dropLeading_dropLeading (s : Str) :
    dropLeading (dropLeading s) = dropLeading s :=
  List.dropWhile_idempotent _ _

/-- A prefix of a string with no leading whitespace has no leading whitespace. -/
theorem dropLeading_of_isPrefix {x y : Str} (hp : y <+: x)
    (hx : dropLeading x = x) : dropLeading y = y := by
  cases y with
  | nil => rfl
  | cons c t =>
    obtain ⟨r, rfl⟩ := hp
    have hc : isPySpace c = false := by
      by_contra hcc
      rw [Bool.not_eq_false] at hcc
      rw [List.cons_append, dropLeading, List.dropWhile_cons, if_pos (by simp [hcc])] at hx
      have hlen := (List.dropWhile_sublist (l := t ++ r) isPySpace).length_le
      rw [hx] at hlen
      simp at hlen
    simp [dropLeading, List.dropWhile_cons, hc]

/-- Function `dropTrailing` returns a prefix of its input. -/
theorem dropTrailing_isPrefix (x : Str) : dropTrailing x <+: x := by
  have h : List.dropWhile isPySpace x.reverse <:+ x.reverse := List.dropWhile_suffix _
  simpa [dropTrailing] using List.reverse_prefix.mpr h

theorem dropTrailing_dropTrailing (x : Str) :
    dropTrailing (dropTrailing x) = dropTrailing x := by
  simp [dropTrailing, List.reverse_reverse, List.dropWhile_idempotent]

/-- Python `strip` is idempotent. -/
theorem pyStrip_pyStrip (s : Str) : pyStrip (pyStrip s) = pyStrip s := by
  unfold pyStrip
  rw [dropLeading_of_isPrefix (dropTrailing_isPrefix (dropLeading s))
    (dropLeading_dropLeading s), dropTrailing_dropTrailing]

/-- The output of `_normalize_company_name` carries no surrounding whitespace. -/
theorem pyStrip_normalize (s : Str) :
    pyStrip (normalize_company_name s) = normalize_company_name s := by
  by_cases h : s = []
  · subst h; rfl
  · rw [normalize_company_name_eq s h, pyStrip_pyStrip]

/-- A suffix whose four patterns all fail to match leaves the string unchanged. -/
theorem stripOneSuffix_eq_of_no_match {n sfx : Str}
    (h : ∀ p ∈ suffixPatterns sfx, strEndsWith p n = false) :
    stripOneSuffix n sfx = n := by
  unfold stripOneSuffix
  rw [List.find?_eq_none.mpr (by intro p hp; simp [h p hp])]

theorem foldl_stripOneSuffix_fixed (n : Str) :
    ∀ l : List Str, (∀ sfx ∈ l, stripOneSuffix n sfx = n) →
      l.foldl stripOneSuffix n = n
  | [], _ => rfl
  | a :: rest, h => by
    rw [List.foldl_cons, h a (List.mem_cons_self a rest)]
    exact foldl_stripOneSuffix_fixed n rest
      (fun sfx hs => h sfx (List.mem_cons_of_mem a hs))

/-- C2 (amended): `_normalize_company_name` is idempotent on every string
whose normalized form neither starts with a listed prefix (`"the "`) nor ends
with any legal-entity suffix pattern; a second application can only act
through those two passes. -/
theorem c2_normalize_company_idempotent_amended (s : Str)
    (hpre : ∀ pfx ∈ companyPrefixes,
      strStartsWith pfx (normalize_company_name s) = false)
    (hsuf : ∀ sfx ∈ companySuffixes, ∀ p ∈ suffixPatterns sfx,
      strEndsWith p (normalize_company_name s) = false) :
    normalize_company_name (normalize_company_name s) = normalize_company_name s := by
  set n := normalize_company_name s with hn
  by_cases hnil : n = []
  · rw [hnil]; rfl
  · rw [normalize_company_name_eq n hnil]
    have hlow : strLower n = n :=
      strLower_eq_self (fun c hc => normalize_company_name_lowered s c hc)
    have hstrip : pyStrip n = n := by rw [hn]; exact pyStrip_normalize s
    have hpfx : stripPrefixPass n = n := by
      unfold stripPrefixPass
      simp only [companyPrefixes, List.foldl_cons, List.foldl_nil]
      rw [hpre (str "the ") (by simp [companyPrefixes])]
      simp
    have hsfx : stripSuffixPass n = n :=
      foldl_stripOneSuffix_fixed n companySuffixes
        (fun sfx hs => stripOneSuffix_eq_of_no_match (hsuf sfx hs))
    rw [hlow, hstrip, hpfx, hsfx, hstrip]

/-- C2 counterexample: `_normalize_company_name` is not idempotent.  The
prefix pass strips a single leading `"the "`, so `"the the x"` normalizes to
`"the x"`, which normalizes further to `"x"`. -/
theorem c2_counterexample :
    normalize_company_name (normalize_company_name (str "the the x")) ≠
      normalize_company_name (str "the the x") := by decide

/-- C2 witness: the amended idempotence theorem applied to `"Acme Inc."`,
whose normal form `"acme"` triggers neither strip pass. -/
theorem c2_witness :
    normalize_company_name (normalize_company_name (str "Acme Inc.")) =
      normalize_company_name (str "Acme Inc.") :=
  c2_normalize_company_idempotent_amended (str "Acme Inc.") (by decide) (by decide)

/-- C1 counterexample: with `use_global_lead_filter = false` and
`lead_filter = None`, `get_effective_config` does NOT fall back to the
global lead filter — the effective `lead_filter` is `None`. -/
theorem c1_counterexample :
    (pExNoOverride.get_effective_config gEx).lead_filter ≠
      some gEx.lead_filter := by decide

/-- C1 (amended): whenever `use_global_D` is false, the effective domain `D`
is exactly the field of the project itself — `None` when no override exists;
`get_effective_config` performs no silent fallback to the global value for
any of the five overridable domains. -/
theorem c1_effective_no_fallback_amended (g : GlobalConfig) (p : ProjectConfig) :
    (p.use_global_lead_filter = false →
      (p.get_effective_config g).lead_filter = p.lead_filter) ∧
    (p.use_global_job_roles = false →
      (p.get_effective_config g).job_roles = p.job_roles) ∧
    (p.use_global_enrichment = false →
      (p.get_effective_config g).enrichment = p.enrichment) ∧
    (p.use_global_email_generation = false →
      (p.get_effective_config g).email_generation = p.email_generation) ∧
    (p.use_global_scheduling = false →
      (p.get_effective_config g).scheduling = p.scheduling) := by
  refine ⟨fun h => ?_, fun h => ?_, fun h => ?_, fun h => ?_, fun h => ?_⟩ <;>
    simp [ProjectConfig.get_effective_config, h]

/-- C1 witness: the amended no-fallback statement evaluated on the concrete
all-flags-false, no-override project. -/
theorem c1_witness :
    (pExNoOverride.get_effective_config gEx).lead_filter = none ∧
    (pExNoOverride.get_effective_config gEx).scheduling = none :=
  ⟨(c1_effective_no_fallback_amended gEx pExNoOverride).1 rfl,
   (c1_effective_no_fallback_amended gEx pExNoOverride).2.2.2.2 rfl⟩

/-- C5: with `use_global_lead_filter = false` and a non-null validating
override `O`, the effective lead filter is `O` exactly — whole-domain
replacement, no field-by-field merge with the global domain. -/
theorem c5_override_whole_domain (g : GlobalConfig) (p : ProjectConfig)
    (O : LeadFilterConfig) (hflag : p.use_global_lead_filter = false)
    (hov : p.lead_filter = some O) (hval : O.validate = true) :
    (p.get_effective_config g).lead_filter = some O := by
  simp [ProjectConfig.get_effective_config, hflag, hov]

/-- C5 witness: the override `⟨false, true, false, 10, 200⟩` validates and is
returned exactly as the effective lead filter. -/
theorem c5_witness :
    (pExOverride.get_effective_config gEx).lead_filter =
      some ⟨false, true, false, some 10, some 200⟩ :=
  c5_override_whole_domain gEx pExOverride _ rfl rfl (by decide)

/-! ### Retry-loop theorems -/
/-- The loop counter grows by at most the remaining fuel. -/
theorem enrichGo_attempts_le (lead : Lead) (etype : Str)
    (oracle : Nat → OracleReply) :
    ∀ (fuel attempts calls : Nat) (err : Option Str),
      (enrichGo lead etype oracle fuel attempts calls err).attempts ≤
        attempts + fuel
  | 0, attempts, calls, err => Nat.le_refl _
  | fuel + 1, attempts, calls, err => by
    simp only [enrichGo]
    split
    · cases h : oracle calls with
      | raisedErr m =>
        simp only [h]
        exact (enrichGo_attempts_le lead etype oracle fuel _ _ _).trans (by omega)
      | reply c =>
        cases c with
        | none =>
          simp only [h]
          exact (enrichGo_attempts_le lead etype oracle fuel _ _ _).trans (by omega)
        | some content =>
          simp only [h]
          split
          · show attempts + 1 ≤ attempts + (fuel + 1)
            omega
          · exact (enrichGo_attempts_le lead etype oracle fuel _ _ _).trans (by omega)
    · show attempts + 1 ≤ attempts + (fuel + 1)
      omega

/-- C3: with `max_retries = N > 0`, the enrichment attempt loop executes at
most `N` attempts, and the `enrichmentAttempts` value persisted with a
terminal `failed` status is at most `N`. -/
theorem c3_retry_bound (cfg : EnrichmentConfig) (lead : Lead) (etype : Str)
    (oracle : Nat → OracleReply) (hN : 0 < cfg.max_retries) :
    ((processLead cfg lead etype oracle).attempts : Int) ≤ cfg.max_retries ∧
    ((processLead cfg lead etype oracle).status = .failed →
      ((processLead cfg lead etype oracle).attempts : Int) ≤ cfg.max_retries) := by
  have h := enrichGo_attempts_le lead etype oracle cfg.max_retries.toNat 0 0 none
  rw [Nat.zero_add] at h
  unfold processLead
  constructor
  · omega
  · intro _; omega

/-- C3 witness: a lead whose oracle never answers consumes exactly the three
permitted attempts, within the bound. -/
theorem c3_witness :
    (0 : Int) < (3 : Int) ∧
    ((processLead ⟨true, 3, 30, str "T"⟩
        ⟨some (str "a@b.co"), some (str "Jane Doe"), some (str "Acme"),
         some (str "CEO"), none⟩
        (str "both") (fun _ => .reply none)).attempts : Int) ≤ 3 :=
  ⟨by decide,
   (c3_retry_bound ⟨true, 3, 30, str "T"⟩
     ⟨some (str "a@b.co"), some (str "Jane Doe"), some (str "Acme"),
      some (str "CEO"), none⟩
     (str "both") (fun _ => .reply none) (by decide)).1⟩

/-- C4 counterexample: a lead with no company and `enrichment_type = both`
does terminate immediately as `failed` without any collaborator call, but
the persisted `enrichmentAttempts` is 1, not 0 — the counter is incremented
on loop entry before the company check. -/
theorem c4_counterexample :
    (processLead ⟨true, 3, 30, str "T"⟩ ⟨some (str "x@y.co"), some (str "Jane Doe"),
        none, none, none⟩ (str "both") (fun _ => .reply none)).status = .failed ∧
    (processLead ⟨true, 3, 30, str "T"⟩ ⟨some (str "x@y.co"), some (str "Jane Doe"),
        none, none, none⟩ (str "both") (fun _ => .reply none)).oracleCalls = 0 ∧
    (processLead ⟨true, 3, 30, str "T"⟩ ⟨some (str "x@y.co"), some (str "Jane Doe"),
        none, none, none⟩ (str "both") (fun _ => .reply none)).attempts ≠ 0 := by
  decide

/-- C4 (amended): a lead whose company is empty or absent (with
`enrichment_type` in `{company, both}` — in fact with any type) terminates
immediately as `failed` with the missing-data error, makes no collaborator
call, and persists `enrichmentAttempts = 1`: the loop increments the counter
before the company check, so one attempt (not zero) is recorded. -/
theorem c4_missing_company_amended (cfg : EnrichmentConfig) (lead : Lead)
    (etype : Str) (oracle : Nat → OracleReply) (hN : 0 < cfg.max_retries)
    (hco : getStr lead.company = []) :
    processLead cfg lead etype oracle =
      ⟨.failed, 1, some msgMissingCompany, 0⟩ := by
  unfold processLead
  obtain ⟨k, hk⟩ : ∃ k, cfg.max_retries.toNat = k + 1 :=
    ⟨cfg.max_retries.toNat - 1, by omega⟩
  rw [hk]
  simp [enrichGo, hco]

/-- C4 witness: the amended statement evaluated on a concrete company-less
lead with `enrichment_type = company`. -/
theorem c4_witness :
    processLead ⟨true, 3, 30, str "T"⟩
        ⟨some (str "x@y.co"), some (str "Jane Doe"), none, none, none⟩
        (str "company") (fun _ => .reply none) =
      ⟨.failed, 1, some msgMissingCompany, 0⟩ :=
  c4_missing_company_amended ⟨true, 3, 30, str "T"⟩
    ⟨some (str "x@y.co"), some (str "Jane Doe"), none, none, none⟩
    (str "company") (fun _ => .reply none) (by decide) rfl

/-! ### Batch-loop theorems -/
/-- The outcome list of the batch loop is the per-lead map: every lead has an
outcome that depends only on that lead and its own oracle. -/
theorem batchGo_outcomes (cfg : EnrichmentConfig) (etype : Str)
    (oracleFor : Lead → Nat → OracleReply) :
    ∀ (leads : List Lead) (e f : Nat),
      (batchGo cfg etype oracleFor leads e f).2.2 =
        leads.map (fun l => processLead cfg l etype (oracleFor l))
  | [], e, f => rfl
  | l :: rest, e, f => by
    simp only [batchGo, List.map_cons]
    cases h : (processLead cfg l etype (oracleFor l)).status <;>
      simp [h, batchGo_outcomes cfg etype oracleFor rest]

/-- Each iteration increments exactly one of the two counters. -/
theorem batchGo_counts (cfg : EnrichmentConfig) (etype : Str)
    (oracleFor : Lead → Nat → OracleReply) :
    ∀ (leads : List Lead) (e f : Nat),
      (batchGo cfg etype oracleFor leads e f).1 +
        (batchGo cfg etype oracleFor leads e f).2.1 = e + f + leads.length
  | [], e, f => rfl
  | l :: rest, e, f => by
    simp only [batchGo, List.length_cons]
    cases h : (processLead cfg l etype (oracleFor l)).status
    · have := batchGo_counts cfg etype oracleFor rest (e + 1) f
      simp [h]; omega
    · have := batchGo_counts cfg etype oracleFor rest e (f + 1)
      simp [h]; omega

/-- C10: in every invocation reaching the per-lead loop, each lead receives
exactly one terminal outcome (the outcome list is the per-lead map, so a
failure on one lead cannot affect the processing of another), and the counts
satisfy `leads_enriched + leads_failed = leads_processed = len(leads)`. -/
theorem c10_isolation_and_conservation (cfg : EnrichmentConfig) (etype : Str)
    (oracleFor : Lead → Nat → OracleReply) (leads : List Lead) :
    (batchGo cfg etype oracleFor leads 0 0).2.2 =
      leads.map (fun l => processLead cfg l etype (oracleFor l)) ∧
    (enrich_leads_loop cfg etype oracleFor leads).leads_enriched +
        (enrich_leads_loop cfg etype oracleFor leads).leads_failed =
      (enrich_leads_loop cfg etype oracleFor leads).leads_processed ∧
    (enrich_leads_loop cfg etype oracleFor leads).leads_processed =
      leads.length := by
  refine ⟨batchGo_outcomes cfg etype oracleFor leads 0 0, ?_, rfl⟩
  have := batchGo_counts cfg etype oracleFor leads 0 0
  simpa [enrich_leads_loop] using this

/-! ### Dedup-invariant lemmas (claim C6) -/
/-- The tracker only grows across one `leadStep`. -/
theorem leadStep_tracker_mono (filter_config : LeadFilterConfig)
    (existing_leads : List Lead) (blacklisted_set : List Str) (lead : Lead)
    (tracker : List Str) :
    tracker ⊆ (leadStep filter_config existing_leads blacklisted_set lead
      tracker).2 := by
  intro x hx
  simp only [leadStep]
  split_ifs <;> simp [hx]

/-- A kept candidate with a truthy company (under `one_person_per_company`)
claimed a key that was fresh with respect to both the tracker and the
existing leads, and that key is in the updated tracker. -/
theorem leadStep_kept_company (filter_config : LeadFilterConfig)
    (existing_leads : List Lead) (blacklisted_set : List Str) (lead : Lead)
    (tracker : List Str)
    (hop : filter_config.one_person_per_company = true)
    (hco : truthyStr lead.company = true)
    (hkept : (leadStep filter_config existing_leads blacklisted_set lead
      tracker).1 = true) :
    normalize_company_name (getStr lead.company) ∉ tracker ∧
    (∀ e ∈ existing_leads, normalize_company_name (getStr e.company) ≠
      normalize_company_name (getStr lead.company)) ∧
    normalize_company_name (getStr lead.company) ∈
      (leadStep filter_config existing_leads blacklisted_set lead tracker).2 := by
  simp only [leadStep] at hkept ⊢
  split_ifs at hkept ⊢ with h1 h2 h3 h4 h5
  · exact ⟨h4, by simpa using h5, by simp⟩
  · exact absurd h3 (by simp [hop, hco])

/-- Accepted candidates with truthy companies carry keys fresh with respect
to the entry tracker and to every existing lead. -/
theorem filterGo_fresh_key (filter_config : LeadFilterConfig)
    (existing_leads : List Lead) (blacklisted_set : List Str)
    (hop : filter_config.one_person_per_company = true) :
    ∀ (leads : List Lead) (tracker : List Str) (x : Lead),
      x ∈ filterGo filter_config existing_leads blacklisted_set leads tracker →
      truthyStr x.company = true →
        normalize_company_name (getStr x.company) ∉ tracker ∧
        ∀ e ∈ existing_leads, normalize_company_name (getStr e.company) ≠
          normalize_company_name (getStr x.company)
  | [], tracker, x, hx, _ => absurd hx (by simp [filterGo])
  | lead :: rest, tracker, x, hx, hco => by
    rw [filterGo] at hx
    by_cases hkeep : (leadStep filter_config existing_leads blacklisted_set
        lead tracker).1 = true
    · rw [if_pos hkeep] at hx
      rcases List.mem_cons.mp hx with hx | hx
      · subst hx
        obtain ⟨hfresh, hex, _⟩ := leadStep_kept_company filter_config
          existing_leads blacklisted_set x tracker hop hco hkeep
        exact ⟨hfresh, hex⟩
      · obtain ⟨hfresh, hex⟩ := filterGo_fresh_key filter_config existing_leads
          blacklisted_set hop rest _ x hx hco
        exact ⟨fun hmem => hfresh (leadStep_tracker_mono filter_config
          existing_leads blacklisted_set lead tracker hmem), hex⟩
    · rw [if_neg hkeep] at hx
      obtain ⟨hfresh, hex⟩ := filterGo_fresh_key filter_config existing_leads
        blacklisted_set hop rest _ x hx hco
      exact ⟨fun hmem => hfresh (leadStep_tracker_mono filter_config
        existing_leads blacklisted_set lead tracker hmem), hex⟩

/-- Accepted candidates with truthy companies have pairwise distinct
normalized company keys. -/
theorem filterGo_pairwise (filter_config : LeadFilterConfig)
    (existing_leads : List Lead) (blacklisted_set : List Str)
    (hop : filter_config.one_person_per_company = true) :
    ∀ (leads : List Lead) (tracker : List Str),
      List.Pairwise (fun a b => truthyStr a.company = true →
        truthyStr b.company = true →
        normalize_company_name (getStr a.company) ≠
          normalize_company_name (getStr b.company))
        (filterGo filter_config existing_leads blacklisted_set leads tracker)
  | [], tracker => by simp [filterGo]
  | lead :: rest, tracker => by
    rw [filterGo]
    by_cases hkeep : (leadStep filter_config existing_leads blacklisted_set
        lead tracker).1 = true
    · rw [if_pos hkeep]
      refine List.Pairwise.cons ?_ (filterGo_pairwise filter_config
        existing_leads blacklisted_set hop rest _)
      intro y hy hta htb
      obtain ⟨_, _, hclaimed⟩ := leadStep_kept_company filter_config
        existing_leads blacklisted_set lead tracker hop hta hkeep
      obtain ⟨hfresh, _⟩ := filterGo_fresh_key filter_config existing_leads
        blacklisted_set hop rest _ y hy htb
      intro heq
      exact hfresh (heq ▸ hclaimed)
    · rw [if_neg hkeep]
      exact filterGo_pairwise filter_config existing_leads blacklisted_set hop
        rest _

/-- C6 (amended): with `one_person_per_company = true`, no two accepted
leads that carry a non-empty company share the same normalized company key,
and no accepted lead with a non-empty company matches the normalized company
of an existing lead.  Leads whose company is empty or absent bypass stage 3
and are exempt. -/
theorem c6_dedup_invariant_amended (leads : List Lead)
    (filter_config : LeadFilterConfig) (existing_leads : List Lead)
    (blacklisted_emails : List Str)
    (hop : filter_config.one_person_per_company = true) :
    List.Pairwise (fun a b => truthyStr a.company = true →
      truthyStr b.company = true →
      normalize_company_name (getStr a.company) ≠
        normalize_company_name (getStr b.company))
      (apply_lead_filters leads filter_config existing_leads
        blacklisted_emails) ∧
    ∀ x ∈ apply_lead_filters leads filter_config existing_leads
        blacklisted_emails,
      truthyStr x.company = true →
      ∀ e ∈ existing_leads, normalize_company_name (getStr e.company) ≠
        normalize_company_name (getStr x.company) := by
  unfold apply_lead_filters
  split
  · simp
  · exact ⟨filterGo_pairwise filter_config existing_leads _ hop leads [],
      fun x hx hco => (filterGo_fresh_key filter_config existing_leads _ hop
        leads [] x hx hco).2⟩

/-- C6 counterexample: with `one_person_per_company = true`, both
empty-company candidates are accepted, and they share the normalized company
key `""` — the unconditional claim fails on leads without a company. -/
theorem c6_counterexample :
    cfgAllOn.one_person_per_company = true ∧
    apply_lead_filters [leadNoCompanyA, leadNoCompanyB] cfgAllOn [] [] =
      [leadNoCompanyA, leadNoCompanyB] ∧
    leadNoCompanyA ≠ leadNoCompanyB ∧
    normalize_company_name (getStr leadNoCompanyA.company) =
      normalize_company_name (getStr leadNoCompanyB.company) := by
  decide

/-- C6 witness: the amended invariant evaluated on the concrete
two-candidate batch. -/
theorem c6_witness :
    List.Pairwise (fun a b => truthyStr a.company = true →
      truthyStr b.company = true →
      normalize_company_name (getStr a.company) ≠
        normalize_company_name (getStr b.company))
      (apply_lead_filters [leadNoCompanyA, leadNoCompanyB] cfgAllOn [] []) ∧
    ∀ x ∈ apply_lead_filters [leadNoCompanyA, leadNoCompanyB] cfgAllOn [] [],
      truthyStr x.company = true →
      ∀ e ∈ ([] : List Lead), normalize_company_name (getStr e.company) ≠
        normalize_company_name (getStr x.company) :=
  c6_dedup_invariant_amended [leadNoCompanyA, leadNoCompanyB] cfgAllOn [] [] rfl

/-! ### Company-size stage semantics (claim C7) -/
/-- C7: with at least one positive size bound configured, the size stage
keeps every lead from which no employee count can be recovered, and drops a
lead with recovered count `n` exactly when `n` undercuts the configured
minimum or exceeds the configured maximum. -/
theorem c7_company_size_semantics (lead : Lead) (filter_config : LeadFilterConfig)
    (hmin : ∀ m, filter_config.min_company_size = some m → 0 < m)
    (hmax : ∀ m, filter_config.max_company_size = some m → 0 < m)
    (hset : truthyOptInt filter_config.min_company_size = true ∨
      truthyOptInt filter_config.max_company_size = true) :
    (extractCompanySize lead = none →
      should_filter_by_company_size lead filter_config = false) ∧
    (∀ n, extractCompanySize lead = some n →
      (should_filter_by_company_size lead filter_config = true ↔
        (∃ m, filter_config.min_company_size = some m ∧ n < m) ∨
        (∃ m, filter_config.max_company_size = some m ∧ n > m))) := by
  have hgate : ¬ (¬ truthyOptInt filter_config.min_company_size = true ∧
      ¬ truthyOptInt filter_config.max_company_size = true) := by
    rcases hset with h | h <;> simp [h]
  constructor
  · intro hnone
    simp [should_filter_by_company_size, hnone, hgate]
  · intro n hn
    rcases hm : filter_config.min_company_size with _ | m <;>
      rcases hM : filter_config.max_company_size with _ | M
    · rw [hm, hM] at hset; exact absurd hset (by simp [truthyOptInt])
    · have hMpos := hmax M hM
      simp [should_filter_by_company_size, hn, hm, hM, truthyOptInt,
        (by omega : M ≠ 0)]
      omega
    · have hmpos := hmin m hm
      simp [should_filter_by_company_size, hn, hm, hM, truthyOptInt,
        (by omega : m ≠ 0)]
      omega
    · have hmpos := hmin m hm
      have hMpos := hmax M hM
      simp [should_filter_by_company_size, hn, hm, hM, truthyOptInt,
        (by omega : m ≠ 0), (by omega : M ≠ 0)]
      by_cases hlt : n < m
      · simp [hlt]
        exact ⟨Or.inl (by omega), Or.inl (by omega)⟩
      · simp [hlt]
        omega

/-- C7 witness: the size-stage theorem evaluated on scenario 3 — the
recovered size is the lower range bound 11, and 11 < 50 drops the lead. -/
theorem c7_witness :
    extractCompanySize leadRange11to50 = some 11 ∧
    should_filter_by_company_size leadRange11to50 cfgMin50 = true := by
  have h := (c7_company_size_semantics leadRange11to50 cfgMin50
    (fun m hm => by simp [cfgMin50] at hm; omega)
    (fun m hm => by simp [cfgMin50] at hm)
    (Or.inl (by decide))).2 11 (by decide)
  exact ⟨by decide, h.mpr (Or.inl ⟨50, rfl, by decide⟩)⟩

set_option maxRecDepth 4096 in
/-- C8: every 99-character response text is rejected by
`validate_enrichment_data`, and the concrete 100-character text above — with
at least 3 `.`-segments, no banned low-information phrase, and at least 30%
unique whitespace tokens — is accepted. -/
theorem c8_length_boundary :
    (∀ t : Str, t.length = 99 → validateContent t = false) ∧
    (validateContent exText100 = true ∧ exText100.length = 100 ∧
      3 ≤ (splitOnChar 46 exText100).length ∧
      (∀ p ∈ generic_phrases, containsSub p (strLower exText100) = false) ∧
      ¬ (10 * (pySplitWs exText100).dedup.length <
        3 * (pySplitWs exText100).length)) := by
  constructor
  · intro t ht
    have hne : t ≠ [] := by intro h; subst h; simp at ht
    simp [validateContent, validate_enrichment_data, hne, ht]
  · refine ⟨by decide, by decide, by decide, by decide, by decide⟩

/-- C8 witness: the universal 99-character rejection applied to a concrete
99-character text. -/
theorem c8_witness : validateContent (List.replicate 99 97) = false :=
  c8_length_boundary.1 (List.replicate 99 97) (by simp)

/-! ### Filter-statistics payload (claim C9) -/
/-- Rounding fixes zero. -/
theorem round2_zero : round2 0 = 0 := by
  norm_num [round2, roundHalfEven]

/-- C9: for every `original_count ≥ 0`, the statistics payload carries
exactly the claimed fields, with `filtered_out = original_count −
filtered_count`, the rounded percentage when `original_count > 0`, and a
percentage of 0 (without a division) when `original_count = 0`. -/
theorem c9_filtering_stats (original_count filtered_count : Int)
    (filter_config : LeadFilterConfig) (hoc : 0 ≤ original_count) :
    get_filtering_stats original_count filtered_count filter_config =
      { original_count := original_count
        filtered_count := filtered_count
        filtered_out := original_count - filtered_count
        filter_rate_percent :=
          if 0 < original_count then
            round2 (((original_count - filtered_count : Int) : ℚ) /
              (original_count : ℚ) * 100)
          else 0
        filters_applied :=
          ⟨filter_config.require_email, filter_config.exclude_blacklisted,
           filter_config.one_person_per_company,
           truthyOptInt filter_config.min_company_size ||
             truthyOptInt filter_config.max_company_size⟩ } := by
  unfold get_filtering_stats
  by_cases h : original_count > 0
  · simp [h]
  · simp [h, round2_zero]

/-- C9 witness: the payload shape evaluated at `original_count = 10`,
`filtered_count = 4`. -/
theorem c9_witness :
    get_filtering_stats 10 4 cfgAllOn =
      { original_count := (10 : Int)
        filtered_count := (4 : Int)
        filtered_out := (10 : Int) - 4
        filter_rate_percent :=
          if (0 : Int) < 10 then
            round2 ((((10 : Int) - (4 : Int) : Int) : ℚ) /
              ((10 : Int) : ℚ) * 100)
          else 0
        filters_applied :=
          ⟨cfgAllOn.require_email, cfgAllOn.exclude_blacklisted,
           cfgAllOn.one_person_per_company,
           truthyOptInt cfgAllOn.min_company_size ||
             truthyOptInt cfgAllOn.max_company_size⟩ } :=
  c9_filtering_stats 10 4 cfgAllOn (by decide)
